import Mathlib

/-!
# Verification of the Sparkonomy invoice-dashboard derivation pipeline

Shallow embedding of the invoice-tracking dashboard's derived-data pipeline
(status/period filtering with synthetic fallback, KPI aggregation, chart
series with growth percentages), the two mutators (`handleCreateInvoice`,
`updateInvoiceStatus`), and the three peripheral "filter active items" HTTP
handlers from `src/api/filter.js`.

Modelling conventions:
* JS numbers (invoice amounts, incomes) are embedded as `ℚ`.
* JS `Date` values used only for comparison (`createdAt`, `now`, the custom
  range bounds) are embedded as integer timestamps (`ℤ`, in days); the
  calendar-month subtraction `new Date(y, m - k, d)` is abstracted as
  subtracting a fixed day count per period (30/90/365 days), which preserves
  the only facts the source relies on: the start of a fixed period lies
  strictly before `now`, and dates compare by their timestamp order.
* Fallible/branching JS (truthiness guards, `Array.isArray`, thrown
  `TypeError`s caught by `try/catch`) is made explicit with sum types.
-/

/-- The closed status enumeration of `app/page.tsx`
(`"Partially Paid"` is written `PartiallyPaid`). -/
inductive InvoiceStatus where
  | Paid
  | Unpaid
  | PartiallyPaid
  | Overdue
  | Disputed
  | Awaited
  | Draft
deriving DecidableEq, Repr

/-- The `Invoice` record of `app/page.tsx`.  `createdAt` is an integer
timestamp (see the module conventions).  The `synthetic` field is the
synthetic-origin marker; it is not in the README's interface sketch and is
modelled from the spec, which requires synthesized invoices to "carry a
synthetic-origin marker" distinguishing them from real data.  Real invoices
carry `synthetic := false`. -/
structure Invoice where
  id : String
  clientName : String
  amount : ℚ
  dueDate : String
  status : InvoiceStatus
  createdAt : ℤ
  synthetic : Bool := false
deriving DecidableEq, Repr

/-- The period selection from the UI: `"1Month" | "3Months" | "1Year" | "Custom"`. -/
inductive Period where
  | oneMonth
  | threeMonths
  | oneYear
  | custom
deriving DecidableEq, Repr

/-- The status filter selection: `"All" | InvoiceStatus`. -/
inductive StatusFilter where
  | all
  | only (s : InvoiceStatus)
deriving DecidableEq, Repr

/-- Day counts standing in for the calendar subtraction in the period
`switch` (`1Month` → now minus 1 month, etc.); `custom` never reaches this
branch. -/
def periodDays : Period → ℤ
  | .oneMonth => 30
  | .threeMonths => 90
  | .oneYear => 365
  | .custom => 0

/-! ## Peripheral HTTP handlers (`src/api/filter.js`) -/

/-- An element of the request's `items` array: a JS object with an `active`
field and arbitrary further payload (collapsed into one string). -/
structure Item where
  active : Bool
  payload : String
deriving DecidableEq, Repr

/-- The possible JS values of the `items` field after destructuring:
a genuine array, a nullish/falsy value (`undefined`, `null`, …, for which
`items || []` yields `[]`), or a truthy non-array value (for which
`items.filter` throws a `TypeError` and `Array.isArray` is `false`). -/
inductive ItemsVal where
  | arr (l : List Item)
  | nullish
  | nonArr
deriving DecidableEq, Repr

/-- A response body: the JSON `{activeItems}` success shape, the JSON
`{error: message}` shape, or an exception escaping the handler (left to the
framework's default 500 handling). -/
inductive ResBody where
  | ok (activeItems : List Item)
  | err (msg : String)
  | uncaught (msg : String)
deriving DecidableEq, Repr

/-- An HTTP response: status code and body. -/
structure Response where
  status : Nat
  body : ResBody
deriving DecidableEq, Repr

/-- Destructuring `const { items } = req.body || {}`: an absent/nullish body destructures
to an `undefined` `items` field. -/
def itemsOf (body : Option ItemsVal) : ItemsVal :=
  match body with
  | none => .nullish
  | some v => v

/-- The serverless handler (default export of `api/filter.js`):
`try { const { items } = req.body || {}; res.status(200).json({activeItems:
(items || []).filter(i => i.active === true)}) } catch (err) {
res.status(500).json({error: err.message}) }`. -/
def handler (body : Option ItemsVal) : Response :=
  match itemsOf body with
  | .arr l => ⟨200, .ok (l.filter (fun i => i.active))⟩
  | .nullish => ⟨200, .ok []⟩
  | .nonArr => ⟨500, .err "items.filter is not a function"⟩

/-- The express `POST /filter` route: same body as `handler` but with no
`try/catch`, so a truthy non-array `items` makes `.filter` throw out of the
route (the framework then answers 500 on its own). -/
def filterRoute (body : Option ItemsVal) : Response :=
  match itemsOf body with
  | .arr l => ⟨200, .ok (l.filter (fun i => i.active))⟩
  | .nullish => ⟨200, .ok []⟩
  | .nonArr => ⟨500, .uncaught "items.filter is not a function"⟩

/-- The express `POST /challenge` route: `const { items } = req.body;
if (!Array.isArray(items)) return res.status(400).json({error: "items must
be an array"}); res.json({activeItems: items.filter(i => i.active ===
true)})`.  (`express.json()` always supplies a body object.) -/
def challengeRoute (items : ItemsVal) : Response :=
  match items with
  | .arr l => ⟨200, .ok (l.filter (fun i => i.active))⟩
  | _ => ⟨400, .err "items must be an array"⟩

/-! ## Mutators (`app/page.tsx` handlers, per the README) -/

/-- The `updateInvoiceStatus` handler: `setInvoices(prev => prev.map(inv =>
inv.id === invoiceId ? { ...inv, status: newStatus } : inv))`. -/
def updateInvoiceStatus (invoiceId : String) (newStatus : InvoiceStatus)
    (prev : List Invoice) : List Invoice :=
  prev.map (fun inv => if inv.id = invoiceId then { inv with status := newStatus } else inv)

/-- The create-invoice dialog's form state (`newInvoice`); `amount` is a
string until parsed. -/
structure NewInvoiceForm where
  clientName : String
  amount : String
  dueDate : String
  status : InvoiceStatus
deriving DecidableEq, Repr

/-- The reset form `{ clientName: '', amount: '', dueDate: '', status: 'Draft' }`. -/
def emptyForm : NewInvoiceForm :=
  { clientName := "", amount := "", dueDate := "", status := .Draft }

/-- The `handleCreateInvoice` handler, guarded by the JS truthiness test
`if (newInvoice.clientName && newInvoice.amount && newInvoice.dueDate)`
(a string is falsy exactly when empty).  When the guard passes, one invoice
is constructed from the form and prepended, and the form is reset; otherwise
nothing changes.  The construction itself is elided in the README
(`/* parse and construct */`), so the parsed amount, the fresh id and the
creation timestamp are supplied by the caller.  Returns the new collection
and the new form state. -/
def handleCreateInvoice (parseAmount : String → ℚ) (freshId : String) (nowTs : ℤ)
    (form : NewInvoiceForm) (invoices : List Invoice) :
    List Invoice × NewInvoiceForm :=
  if form.clientName ≠ "" ∧ form.amount ≠ "" ∧ form.dueDate ≠ "" then
    ({ id := freshId, clientName := form.clientName,
       amount := parseAmount form.amount, dueDate := form.dueDate,
       status := form.status, createdAt := nowTs, synthetic := false } :: invoices,
     emptyForm)
  else
    (invoices, form)

/-! ## Stage 1: status & period filter (`filteredInvoices` memo) -/

/-- The status narrowing: `if (statusFilter !== "All") filtered =
filtered.filter(i => i.status === statusFilter)`. -/
def statusFiltered (sf : StatusFilter) (invoices : List Invoice) : List Invoice :=
  match sf with
  | .all => invoices
  | .only s => invoices.filter (fun i => i.status = s)

/-- The window narrowing shared by the `Custom` branch and the fixed-period
path: retain invoices with `startDate ≤ createdAt ≤ endDate`. -/
def windowFiltered (startD endD : ℤ) (invoices : List Invoice) : List Invoice :=
  invoices.filter (fun inv => startD ≤ inv.createdAt ∧ inv.createdAt ≤ endD)

/-- Modelled from the spec: the synthetic placeholder generator is elided in
the README (`// generate weekly/monthly synthetic invoices depending on
range length`, `return synth`).  Per the spec it synthesizes "a small
deterministic set of placeholder invoices spanning the window (weekly
granularity for windows ≤ ~1 month, monthly granularity otherwise)", with
plausible amounts, a paid-like status, `createdAt` values spread evenly
across the window, and a synthetic-origin marker. -/
def genSynthetic (startD endD : ℤ) : List Invoice :=
  let span : ℕ := (endD - startD).toNat
  let step : ℕ := if span ≤ 31 then 7 else 30
  let n : ℕ := span / step + 1
  (List.range n).map (fun (k : ℕ) =>
    { id := "synthetic-" ++ toString k
      clientName := "Sample Client " ++ toString (k + 1)
      amount := 1000 + 500 * (k : ℚ)
      dueDate := ""
      status := .Paid
      createdAt := startD + ((step * k : ℕ) : ℤ)
      synthetic := true })

/-- The inputs of the `filteredInvoices` memo: the invoice collection and the
filter selections it closes over, plus the reference time `new Date()`. -/
structure FilterArgs where
  invoices : List Invoice
  statusFilter : StatusFilter
  period : Period
  customStartDate : Option ℤ
  customEndDate : Option ℤ
  now : ℤ
deriving Repr

/-- The `filteredInvoices` memo of `app/page.tsx` (README lines 273–309):
narrow by status; for `Custom`, narrow by the custom bounds only when both
are present and fall back to synthetic data only when both are present and
the narrowed result is empty; for the fixed periods, narrow to
`[now − period, now]` and fall back to synthetic data when empty. -/
def filteredInvoices (a : FilterArgs) : List Invoice :=
  let filtered := statusFiltered a.statusFilter a.invoices
  match a.period with
  | .custom =>
    match a.customStartDate, a.customEndDate with
    | some s, some e =>
      let filtered2 := windowFiltered s e filtered
      if filtered2.length = 0 then genSynthetic s e else filtered2
    | some _, none => filtered
    | none, some _ => filtered
    | none, none => filtered
  | p =>
    let startD := a.now - periodDays p
    let periodFiltered := windowFiltered startD a.now filtered
    if periodFiltered.length = 0 then genSynthetic startD a.now else periodFiltered

/-- The resolved `[startDate, endDate]` window: for `Custom` it exists only
when both bounds are supplied; the fixed periods always resolve to
`[now − period, now]`. -/
def resolvedWindow (a : FilterArgs) : Option (ℤ × ℤ) :=
  match a.period with
  | .custom =>
    match a.customStartDate, a.customEndDate with
    | some s, some e => some (s, e)
    | _, _ => none
  | p => some (a.now - periodDays p, a.now)

/-- The real (pre-fallback) filtered result: the status-filtered collection,
narrowed by the resolved window when one exists. -/
def rawFiltered (a : FilterArgs) : List Invoice :=
  match resolvedWindow a with
  | some (s, e) => windowFiltered s e (statusFiltered a.statusFilter a.invoices)
  | none => statusFiltered a.statusFilter a.invoices

/-! ## Stage 2: KPI aggregation (`kpiData` memo) -/

/-- The `paidish` predicate: `status === "Paid" || status === "Partially Paid"`. -/
def paidish (i : Invoice) : Bool :=
  i.status = .Paid ∨ i.status = .PartiallyPaid

/-- The three KPI totals. -/
structure KPI where
  totalEarnings : ℚ
  paymentAwaited : ℚ
  paymentOverdue : ℚ
deriving DecidableEq, Repr

/-- The `kpiData` memo (README lines 316–321): three filter-and-reduce sums
over the filtered invoices. -/
def kpiData (filtered : List Invoice) : KPI :=
  { totalEarnings :=
      (filtered.filter paidish).foldl (fun acc i => acc + i.amount) 0
    paymentAwaited :=
      (filtered.filter (fun i => i.status = .Awaited ∨ i.status = .Unpaid)).foldl
        (fun acc i => acc + i.amount) 0
    paymentOverdue :=
      (filtered.filter (fun i => i.status = .Overdue)).foldl
        (fun acc i => acc + i.amount) 0 }

/-! ## Stage 3: chart series (`chartData` memo) -/

/-- A chart bucket: a labelled contiguous date sub-interval of the active
window (a week or a month, produced by `getMonthsForPeriod`). -/
structure Bucket where
  label : String
  lo : ℤ
  hi : ℤ
deriving DecidableEq, Repr

/-- Raw income of one bucket: sum of `amount` over paid-like invoices whose
`createdAt` falls in the bucket. -/
def bucketIncome (filtered : List Invoice) (b : Bucket) : ℚ :=
  ((filtered.filter (fun i => paidish i ∧ b.lo ≤ i.createdAt ∧ i.createdAt ≤ b.hi)).map
    (fun i => i.amount)).sum

/-- Modelled from the spec: `computeGrowth` is elided in the README.  Per the
spec, growth for bucket `i > 0` is the percentage change of bucket `i`'s raw
income relative to bucket `i−1`'s, defined as 0 when the previous bucket's
income is 0; bucket 0's growth is treated as 0. -/
def computeGrowth (incomes : List ℚ) (idx : ℕ) : ℚ :=
  if idx = 0 then 0
  else
    let prev := incomes.getD (idx - 1) 0
    if prev = 0 then 0 else (incomes.getD idx 0 - prev) / prev * 100

/-- One point of the chart series (the transient `isHovered` pass-through
flag is omitted, as the spec allows for a headless reimplementation). -/
structure ChartPoint where
  month : String
  income : ℚ
  growth : ℚ
deriving DecidableEq, Repr

/-- The `chartData` memo (README lines 327–338) over a given bucket list:
per-bucket raw incomes, then points carrying the label, the income scaled
down by 1000, and the growth percentage. -/
def chartData (filtered : List Invoice) (buckets : List Bucket) : List ChartPoint :=
  let incomes := buckets.map (bucketIncome filtered)
  (List.range buckets.length).map (fun idx =>
    { month := (buckets.getD idx ⟨"", 0, 0⟩).label
      income := incomes.getD idx 0 / 1000
      growth := computeGrowth incomes idx })

/-! ## Concrete sample data (used by witnesses and counterexamples) -/

/-- A default invoice, used only as the `getD` fallback in statements. -/
def dfltInvoice : Invoice :=
  { id := "", clientName := "", amount := 0, dueDate := "", status := .Draft, createdAt := 0 }

/-- A default chart point, used only as the `getD` fallback in statements. -/
def dfltPoint : ChartPoint := { month := "", income := 0, growth := 0 }

/-- A sample real invoice: amount 100, status Paid, created at time 50. -/
def invPaid : Invoice :=
  { id := "inv-1", clientName := "Acme", amount := 100, dueDate := "2025-07-01",
    status := .Paid, createdAt := 50 }

/-- A sample real invoice: amount 40, status Unpaid, created at time 55. -/
def invUnpaid : Invoice :=
  { id := "inv-2", clientName := "Globex", amount := 40, dueDate := "2025-07-02",
    status := .Unpaid, createdAt := 55 }

/-- A sample real invoice with a status outside all three KPI categories. -/
def invDisputed : Invoice :=
  { id := "inv-3", clientName := "Initech", amount := 7, dueDate := "2025-07-03",
    status := .Disputed, createdAt := 52 }

/-- A sample paid invoice with a raw income of 1000 (first chart bucket). -/
def invK1 : Invoice :=
  { id := "inv-4", clientName := "Umbrella", amount := 1000, dueDate := "2025-07-04",
    status := .Paid, createdAt := 10 }

/-- A sample paid invoice with a raw income of 2000 (second chart bucket). -/
def invK2 : Invoice :=
  { id := "inv-5", clientName := "Stark", amount := 2000, dueDate := "2025-07-05",
    status := .Paid, createdAt := 50 }

/-! ## Helper lemmas -/

/-- Folding `(acc, i) => acc + i.amount` is summing the amounts. -/
theorem foldl_add_amount (l : List Invoice) (c : ℚ) :
    l.foldl (fun acc i => acc + i.amount) c = c + (l.map Invoice.amount).sum := by
  induction l generalizing c with
  | nil => simp
  | cons h t ih => simp only [List.foldl_cons, List.map_cons, List.sum_cons, ih]; ring

/-- Every synthesized invoice carries the synthetic-origin marker. -/
theorem genSynthetic_marked (s e : ℤ) : ∀ i ∈ genSynthetic s e, i.synthetic = true := by
  intro i hi
  simp only [genSynthetic, List.mem_map] at hi
  obtain ⟨k, -, rfl⟩ := hi
  rfl

/-- Synthesized invoices have their `createdAt` inside the generating window. -/
theorem genSynthetic_created_in_window (s e : ℤ) (hse : s ≤ e) :
    ∀ i ∈ genSynthetic s e, s ≤ i.createdAt ∧ i.createdAt ≤ e := by
  intro i hi
  simp only [genSynthetic, List.mem_map, List.mem_range] at hi
  obtain ⟨k, hk, rfl⟩ := hi
  dsimp only
  constructor
  · have : (0 : ℤ) ≤ ((if (e - s).toNat ≤ 31 then 7 else 30) * k : ℕ) := Int.ofNat_nonneg _
    omega
  · have hk' : k ≤ (e - s).toNat / (if (e - s).toNat ≤ 31 then 7 else 30) :=
      Nat.lt_succ_iff.mp hk
    have h1 : (if (e - s).toNat ≤ 31 then 7 else 30) * k ≤ (e - s).toNat := by
      calc (if (e - s).toNat ≤ 31 then 7 else 30) * k
          ≤ (if (e - s).toNat ≤ 31 then 7 else 30) *
              ((e - s).toNat / (if (e - s).toNat ≤ 31 then 7 else 30)) :=
            Nat.mul_le_mul_left _ hk'
        _ ≤ (e - s).toNat := Nat.mul_div_le _ _
    have h2 : ((e - s).toNat : ℤ) = e - s := Int.toNat_of_nonneg (by omega)
    omega

/-- The synthesized set is never empty. -/
theorem genSynthetic_ne_nil (s e : ℤ) : genSynthetic s e ≠ [] := by
  simp [genSynthetic]

/-- Case characterization of the filter stage: when a window resolves, the
output is the raw windowed result unless that is empty, in which case it is
the synthetic set; when no window resolves, the output is the status-only
narrowed collection. -/
theorem filteredInvoices_cases (a : FilterArgs) :
    filteredInvoices a =
      match resolvedWindow a with
      | some (s, e) => if rawFiltered a = [] then genSynthetic s e else rawFiltered a
      | none => rawFiltered a := by
  obtain ⟨inv, sf, p, cs, ce, now⟩ := a
  cases p
  case custom =>
    simp only [filteredInvoices, resolvedWindow, rawFiltered, List.length_eq_zero]
    cases cs <;> cases ce <;> rfl
  all_goals
    simp only [filteredInvoices, resolvedWindow, rawFiltered, List.length_eq_zero]

/-! ## Claim theorems -/

/-- C1: for every filtered invoice sequence, the KPI aggregator returns
`totalEarnings` equal to the sum of `amount` over invoices with status Paid
or PartiallyPaid, `paymentAwaited` equal to the sum over Awaited or Unpaid,
and `paymentOverdue` equal to the sum over Overdue; an invoice with status
Disputed or Draft contributes to none of the three totals (prepending one
leaves all three unchanged). -/
theorem kpiData_totals (l : List Invoice) :
    (kpiData l).totalEarnings =
      ((l.filter (fun i => i.status = .Paid ∨ i.status = .PartiallyPaid)).map
        Invoice.amount).sum ∧
    (kpiData l).paymentAwaited =
      ((l.filter (fun i => i.status = .Awaited ∨ i.status = .Unpaid)).map
        Invoice.amount).sum ∧
    (kpiData l).paymentOverdue =
      ((l.filter (fun i => i.status = .Overdue)).map Invoice.amount).sum ∧
    ∀ i : Invoice, i.status = .Disputed ∨ i.status = .Draft →
      kpiData (i :: l) = kpiData l := by
  refine ⟨?_, ?_, ?_, ?_⟩
  · have hp : l.filter paidish =
        l.filter (fun i => i.status = .Paid ∨ i.status = .PartiallyPaid) :=
      List.filter_congr (fun i _ => rfl)
    simp [kpiData, hp, foldl_add_amount]
  · simp [kpiData, foldl_add_amount]
  · simp [kpiData, foldl_add_amount]
  · intro i hi
    rcases hi with h | h <;> simp [kpiData, paidish, List.filter_cons, h]

/-- Witness for C1 at the spec's scenario: one Paid invoice of amount 100
gives totals (100, 0, 0), and prepending a Disputed invoice changes no
total. -/
theorem kpiData_totals_witness :
    kpiData (invDisputed :: [invPaid]) = kpiData [invPaid] ∧
    (kpiData [invPaid]).totalEarnings = 100 ∧
    (kpiData [invPaid]).paymentAwaited = 0 ∧
    (kpiData [invPaid]).paymentOverdue = 0 :=
  ⟨(kpiData_totals [invPaid]).2.2.2 invDisputed (Or.inl rfl),
   by simp [kpiData, invPaid, paidish, List.filter_cons],
   by simp [kpiData, invPaid, List.filter_cons],
   by simp [kpiData, invPaid, List.filter_cons]⟩

/-- C6: each handler, given a body whose `items` is an array, responds 200
with `activeItems` holding exactly the items whose `active` field is true;
the try/catch variant responds 500 with an error message when the filter
throws; the `/challenge` variant instead responds 400 with an error when
`items` is not an array. -/
theorem handlers_contract (l : List Item) :
    handler (some (.arr l)) = ⟨200, .ok (l.filter (fun i => i.active))⟩ ∧
    filterRoute (some (.arr l)) = ⟨200, .ok (l.filter (fun i => i.active))⟩ ∧
    challengeRoute (.arr l) = ⟨200, .ok (l.filter (fun i => i.active))⟩ ∧
    (∀ i : Item, (i ∈ l.filter (fun i => i.active)) ↔ (i ∈ l ∧ i.active = true)) ∧
    (handler (some .nonArr)).status = 500 ∧
    (∃ m, (handler (some .nonArr)).body = .err m) ∧
    (challengeRoute .nonArr).status = 400 ∧
    (∃ m, (challengeRoute .nonArr).body = .err m) := by
  refine ⟨rfl, rfl, rfl, ?_, rfl, ⟨_, rfl⟩, rfl, ⟨_, rfl⟩⟩
  intro i
  simp [List.mem_filter]

/-- C9: the two handler variants without the array check answer 200 with an
empty `activeItems` when the body is absent or its `items` field is
nullish. -/
theorem missing_items_gives_empty_ok :
    handler none = ⟨200, .ok []⟩ ∧
    handler (some .nullish) = ⟨200, .ok []⟩ ∧
    filterRoute none = ⟨200, .ok []⟩ ∧
    filterRoute (some .nullish) = ⟨200, .ok []⟩ :=
  ⟨rfl, rfl, rfl, rfl⟩

/-- Positional access commutes with `map` (with any defaults, in bounds). -/
theorem getD_map_of_lt {α β : Type} (f : α → β) (l : List α) (k : ℕ)
    (hk : k < l.length) (d : β) (d' : α) :
    (l.map f).getD k d = f (l.getD k d') := by
  induction l generalizing k with
  | nil => simp at hk
  | cons a t ih =>
    cases k with
    | zero => rfl
    | succ k =>
      simp only [List.map_cons, List.getD_cons_succ]
      exact ih k (by simpa using hk)

/-- C7: the status-update operation keeps the collection's length and order,
leaves every invoice whose `id` differs from the given one unchanged, and on
a matching position replaces only the `status` field (the record update
keeps `id`, `clientName`, `amount`, `dueDate` and `createdAt`). -/
theorem updateInvoiceStatus_frame (invoiceId : String) (st : InvoiceStatus)
    (l : List Invoice) :
    (updateInvoiceStatus invoiceId st l).length = l.length ∧
    ∀ k : ℕ, k < l.length →
      ((l.getD k dfltInvoice).id ≠ invoiceId →
        (updateInvoiceStatus invoiceId st l).getD k dfltInvoice =
          l.getD k dfltInvoice) ∧
      ((l.getD k dfltInvoice).id = invoiceId →
        (updateInvoiceStatus invoiceId st l).getD k dfltInvoice =
          { l.getD k dfltInvoice with status := st }) := by
  constructor
  · simp [updateInvoiceStatus]
  · intro k hk
    rw [updateInvoiceStatus, getD_map_of_lt _ l k hk dfltInvoice dfltInvoice]
    constructor
    · intro h
      exact if_neg h
    · intro h
      exact if_pos h

/-- Witness for C7: updating invoice `inv-2` from Unpaid to Paid in a
two-invoice collection leaves length, order and the non-matching invoice
untouched and only rewrites the matching invoice's status. -/
theorem updateInvoiceStatus_frame_witness :
    (updateInvoiceStatus "inv-2" InvoiceStatus.Paid [invPaid, invUnpaid]).length =
      [invPaid, invUnpaid].length ∧
    (updateInvoiceStatus "inv-2" InvoiceStatus.Paid [invPaid, invUnpaid]).getD 0 dfltInvoice =
      [invPaid, invUnpaid].getD 0 dfltInvoice ∧
    (updateInvoiceStatus "inv-2" InvoiceStatus.Paid [invPaid, invUnpaid]).getD 1 dfltInvoice =
      { [invPaid, invUnpaid].getD 1 dfltInvoice with status := InvoiceStatus.Paid } :=
  ⟨(updateInvoiceStatus_frame "inv-2" .Paid [invPaid, invUnpaid]).1,
   ((updateInvoiceStatus_frame "inv-2" .Paid [invPaid, invUnpaid]).2 0 (by norm_num)).1
     (by simp [invPaid]),
   ((updateInvoiceStatus_frame "inv-2" .Paid [invPaid, invUnpaid]).2 1 (by norm_num)).2
     (by simp [invUnpaid])⟩

/-- C10: the create-invoice operation leaves the collection and the form
unchanged when any of `clientName`, `amount`, `dueDate` is empty, and when
all three are present it prepends exactly one new invoice built from the
form and resets the form. -/
theorem handleCreateInvoice_guarded (parseAmount : String → ℚ) (freshId : String)
    (nowTs : ℤ) (form : NewInvoiceForm) (invoices : List Invoice) :
    ((form.clientName = "" ∨ form.amount = "" ∨ form.dueDate = "") →
      handleCreateInvoice parseAmount freshId nowTs form invoices = (invoices, form)) ∧
    (form.clientName ≠ "" → form.amount ≠ "" → form.dueDate ≠ "" →
      handleCreateInvoice parseAmount freshId nowTs form invoices =
        ({ id := freshId, clientName := form.clientName,
           amount := parseAmount form.amount, dueDate := form.dueDate,
           status := form.status, createdAt := nowTs, synthetic := false } :: invoices,
         emptyForm)) := by
  constructor
  · intro h
    rw [handleCreateInvoice, if_neg]
    tauto
  · intro h1 h2 h3
    rw [handleCreateInvoice, if_pos ⟨h1, h2, h3⟩]

/-- Witness for C10: an empty `dueDate` leaves state untouched; a fully
populated form prepends one invoice and resets the form. -/
theorem handleCreateInvoice_guarded_witness :
    handleCreateInvoice (fun _ => 250) "inv-9" 60
        ⟨"Acme", "250", "", .Unpaid⟩ [invPaid] = ([invPaid], ⟨"Acme", "250", "", .Unpaid⟩) ∧
    handleCreateInvoice (fun _ => 250) "inv-9" 60
        ⟨"Acme", "250", "2025-08-01", .Unpaid⟩ [invPaid] =
      ({ id := "inv-9", clientName := "Acme", amount := 250, dueDate := "2025-08-01",
         status := .Unpaid, createdAt := 60, synthetic := false } :: [invPaid], emptyForm) :=
  ⟨(handleCreateInvoice_guarded (fun _ => 250) "inv-9" 60
      ⟨"Acme", "250", "", .Unpaid⟩ [invPaid]).1 (Or.inr (Or.inr rfl)),
   (handleCreateInvoice_guarded (fun _ => 250) "inv-9" 60
      ⟨"Acme", "250", "2025-08-01", .Unpaid⟩ [invPaid]).2
     (by simp) (by simp) (by simp)⟩

/-- Window-resolved specialization of `filteredInvoices_cases`. -/
theorem filteredInvoices_of_window (a : FilterArgs) (s e : ℤ)
    (hw : resolvedWindow a = some (s, e)) :
    filteredInvoices a =
      if rawFiltered a = [] then genSynthetic s e else rawFiltered a := by
  have h := filteredInvoices_cases a
  rw [hw] at h
  exact h

/-- Unresolved-window specialization of `filteredInvoices_cases`. -/
theorem filteredInvoices_of_no_window (a : FilterArgs)
    (hw : resolvedWindow a = none) :
    filteredInvoices a = rawFiltered a := by
  have h := filteredInvoices_cases a
  rw [hw] at h
  exact h

/-- The raw result under a resolved window is the window-narrowed
status-narrowed collection. -/
theorem rawFiltered_of_window (a : FilterArgs) (s e : ℤ)
    (hw : resolvedWindow a = some (s, e)) :
    rawFiltered a = windowFiltered s e (statusFiltered a.statusFilter a.invoices) := by
  unfold rawFiltered
  rw [hw]

/-- The raw result under an unresolved window is the status-narrowed
collection only. -/
theorem rawFiltered_of_no_window (a : FilterArgs) (hw : resolvedWindow a = none) :
    rawFiltered a = statusFiltered a.statusFilter a.invoices := by
  unfold rawFiltered
  rw [hw]

/-- All period days are nonnegative. -/
theorem periodDays_nonneg (p : Period) : 0 ≤ periodDays p := by
  cases p <;> norm_num [periodDays]

/-- Counterexample to C2: with period Custom and a missing end bound, the
filter stage does not yield an empty pre-fallback set and does not fall back
to synthetic data — it returns the status-only-filtered collection, here the
one real invoice, unchanged and unmarked. -/
theorem custom_missing_bound_counterexample :
    rawFiltered ⟨[invPaid], .all, .custom, some 0, none, 60⟩ = [invPaid] ∧
    filteredInvoices ⟨[invPaid], .all, .custom, some 0, none, 60⟩ = [invPaid] ∧
    invPaid.synthetic = false ∧
    ([invPaid] : List Invoice) ≠ [] := by
  refine ⟨rfl, rfl, rfl, ?_⟩
  simp

/-- C2 (amended): if period Custom is selected and at least one of the
custom bounds is absent, no window resolves and no date filtering is
applied: the filter stage returns the status-only-filtered collection
unchanged (possibly non-empty), and the synthetic fallback does not
trigger. -/
theorem custom_missing_bound_passthrough (a : FilterArgs)
    (hp : a.period = .custom)
    (hb : a.customStartDate = none ∨ a.customEndDate = none) :
    filteredInvoices a = statusFiltered a.statusFilter a.invoices ∧
    resolvedWindow a = none := by
  obtain ⟨inv, sf, p, cs, ce, now⟩ := a
  dsimp only at hp hb
  subst hp
  have hw : resolvedWindow ⟨inv, sf, .custom, cs, ce, now⟩ = none := by
    cases cs <;> cases ce <;> simp_all [resolvedWindow]
  refine ⟨?_, hw⟩
  rw [filteredInvoices_of_no_window _ hw, rawFiltered_of_no_window _ hw]

/-- Witness for the amended C2 at a concrete input: one invoice, Custom
period, start bound present, end bound absent. -/
theorem custom_missing_bound_passthrough_witness :
    filteredInvoices ⟨[invPaid], .all, .custom, some 0, none, 60⟩ =
      statusFiltered .all [invPaid] ∧
    resolvedWindow ⟨[invPaid], .all, .custom, some 0, none, 60⟩ = none :=
  custom_missing_bound_passthrough ⟨[invPaid], .all, .custom, some 0, none, 60⟩
    rfl (Or.inr rfl)

/-- C3: the synthetic fallback triggers iff the real status+period-filtered
result is empty and a window resolves: in that case the output is exactly
the synthesized set, every element of which carries the synthetic-origin
marker; in every other case the output is the real (pre-fallback) filtered
result. -/
theorem fallback_iff_empty_and_window (a : FilterArgs) :
    (∀ s e : ℤ, resolvedWindow a = some (s, e) → rawFiltered a = [] →
      filteredInvoices a = genSynthetic s e ∧
      ∀ i ∈ filteredInvoices a, i.synthetic = true) ∧
    (rawFiltered a ≠ [] ∨ resolvedWindow a = none →
      filteredInvoices a = rawFiltered a) := by
  constructor
  · intro s e hw hr
    have h := filteredInvoices_of_window a s e hw
    rw [if_pos hr] at h
    refine ⟨h, ?_⟩
    rw [h]
    exact genSynthetic_marked s e
  · intro hcase
    rcases hcase with hne | hnone
    · cases hw : resolvedWindow a with
      | none => exact filteredInvoices_of_no_window a hw
      | some se =>
        have h := filteredInvoices_of_window a se.1 se.2 (by rw [hw])
        rw [if_neg hne] at h
        exact h
    · exact filteredInvoices_of_no_window a hnone

/-- Witness for C3 at the spec's scenario: empty collection, 3-month period
→ the output is exactly the synthesized set for the resolved window
`[10, 100]`, and its elements all carry the synthetic marker. -/
theorem fallback_iff_empty_and_window_witness :
    filteredInvoices ⟨[], .all, .threeMonths, none, none, 100⟩ =
      genSynthetic 10 100 ∧
    (filteredInvoices ⟨[], .all, .threeMonths, none, none, 100⟩).map
      Invoice.synthetic = [true, true, true, true] := by
  have h :=
    (fallback_iff_empty_and_window ⟨[], .all, .threeMonths, none, none, 100⟩).1
      10 100 rfl rfl
  refine ⟨h.1, ?_⟩
  rw [h.1]
  rfl

/-- C5: for every non-Custom period, every invoice in the filter stage's
output (real or synthesized) has `createdAt` inside the inclusive window
`[now − period, now]`. -/
theorem nonCustom_createdAt_in_window (a : FilterArgs) (hp : a.period ≠ .custom) :
    ∀ i ∈ filteredInvoices a,
      a.now - periodDays a.period ≤ i.createdAt ∧ i.createdAt ≤ a.now := by
  intro i hi
  have hw : resolvedWindow a = some (a.now - periodDays a.period, a.now) := by
    obtain ⟨inv, sf, p, cs, ce, now⟩ := a
    cases p <;> simp_all [resolvedWindow]
  rw [filteredInvoices_of_window a _ _ hw] at hi
  by_cases hr : rawFiltered a = []
  · rw [if_pos hr] at hi
    exact genSynthetic_created_in_window _ _
      (by have := periodDays_nonneg a.period; omega) i hi
  · rw [if_neg hr, rawFiltered_of_window a _ _ hw] at hi
    simp only [windowFiltered, List.mem_filter, decide_eq_true_eq] at hi
    exact hi.2

/-- Witness for C5: the one-month window `[30, 60]` contains the sample
invoice created at 50, which the filter stage keeps. -/
theorem nonCustom_createdAt_in_window_witness :
    (60 : ℤ) - periodDays .oneMonth ≤ invPaid.createdAt ∧
    invPaid.createdAt ≤ (60 : ℤ) :=
  nonCustom_createdAt_in_window ⟨[invPaid], .all, .oneMonth, none, none, 60⟩
    (by simp) invPaid
    (by simp [filteredInvoices, windowFiltered, statusFiltered, periodDays, invPaid])

/-- Window narrowing is idempotent. -/
theorem windowFiltered_idem (s e : ℤ) (l : List Invoice) :
    windowFiltered s e (windowFiltered s e l) = windowFiltered s e l := by
  unfold windowFiltered
  rw [List.filter_filter]
  exact List.filter_congr (fun a _ => Bool.and_self _)

/-- Status narrowing is idempotent. -/
theorem statusFiltered_idem (sf : StatusFilter) (l : List Invoice) :
    statusFiltered sf (statusFiltered sf l) = statusFiltered sf l := by
  cases sf with
  | all => rfl
  | only s =>
    simp only [statusFiltered]
    rw [List.filter_filter]
    exact List.filter_congr (fun a _ => Bool.and_self _)

/-- Status narrowing and window narrowing commute. -/
theorem statusFiltered_windowFiltered_comm (sf : StatusFilter) (s e : ℤ)
    (l : List Invoice) :
    statusFiltered sf (windowFiltered s e l) =
      windowFiltered s e (statusFiltered sf l) := by
  cases sf with
  | all => rfl
  | only st =>
    simp only [statusFiltered]
    unfold windowFiltered
    rw [List.filter_filter, List.filter_filter]
    exact List.filter_congr (fun a _ => Bool.and_comm _ _)

/-- C8: the filter stage is deterministic (it is a pure function of its
arguments, including the reference time) and idempotent on non-empty raw
results: when the pre-fallback result is non-empty the output is exactly
that non-synthetic result, and feeding the output back through the stage
with the same selections reproduces it. -/
theorem filter_stage_idempotent (a : FilterArgs) (h : rawFiltered a ≠ []) :
    filteredInvoices a = rawFiltered a ∧
    filteredInvoices { a with invoices := filteredInvoices a } =
      filteredInvoices a := by
  have h1 : filteredInvoices a = rawFiltered a := by
    cases hw : resolvedWindow a with
    | none => exact filteredInvoices_of_no_window a hw
    | some se =>
      have hh := filteredInvoices_of_window a se.1 se.2 (by rw [hw])
      rw [if_neg h] at hh
      exact hh
  refine ⟨h1, ?_⟩
  cases hw : resolvedWindow a with
  | none =>
    have hw2 : resolvedWindow { a with invoices := filteredInvoices a } = none := hw
    have e1 : filteredInvoices { a with invoices := filteredInvoices a } =
        statusFiltered a.statusFilter (filteredInvoices a) := by
      rw [filteredInvoices_of_no_window _ hw2, rawFiltered_of_no_window _ hw2]
    rw [e1, h1, rawFiltered_of_no_window a hw, statusFiltered_idem]
  | some se =>
    obtain ⟨s, e⟩ := se
    have hw2 : resolvedWindow { a with invoices := filteredInvoices a } =
        some (s, e) := hw
    have hraw : rawFiltered { a with invoices := filteredInvoices a } =
        rawFiltered a := by
      have e1 : rawFiltered { a with invoices := filteredInvoices a } =
          windowFiltered s e (statusFiltered a.statusFilter (filteredInvoices a)) :=
        rawFiltered_of_window _ s e hw2
      rw [e1, h1, rawFiltered_of_window a s e hw,
          statusFiltered_windowFiltered_comm, windowFiltered_idem, statusFiltered_idem]
    rw [filteredInvoices_of_window _ s e hw2, hraw, if_neg h, h1]

/-- Witness for C8: one in-window invoice, one-month period — the output is
the raw result and re-filtering the output reproduces it. -/
theorem filter_stage_idempotent_witness :
    filteredInvoices ⟨[invPaid], .all, .oneMonth, none, none, 60⟩ =
      rawFiltered ⟨[invPaid], .all, .oneMonth, none, none, 60⟩ ∧
    filteredInvoices
        ⟨filteredInvoices ⟨[invPaid], .all, .oneMonth, none, none, 60⟩,
         .all, .oneMonth, none, none, 60⟩ =
      filteredInvoices ⟨[invPaid], .all, .oneMonth, none, none, 60⟩ :=
  filter_stage_idempotent ⟨[invPaid], .all, .oneMonth, none, none, 60⟩
    (by simp [rawFiltered, resolvedWindow, windowFiltered, statusFiltered,
              periodDays, invPaid])

/-- Positional access on `List.range` (in bounds, any default). -/
theorem getD_range_of_lt (n k : ℕ) (hk : k < n) (d : ℕ) :
    (List.range n).getD k d = k := by
  simp [List.getD_eq_getElem?_getD, List.getElem?_range, hk]

/-- C4: in the chart series, the growth of bucket 0 is 0; for a bucket
`idx > 0` the growth is 0 whenever the previous bucket's raw income is 0
(for any current income), and otherwise the percentage change of bucket
`idx`'s raw income relative to bucket `idx − 1`'s — division only ever
happens under a non-zero-previous guard. -/
theorem chartData_growth_spec (filtered : List Invoice) (buckets : List Bucket)
    (idx : ℕ) (hidx : idx < buckets.length) :
    ((chartData filtered buckets).getD idx dfltPoint).growth =
      computeGrowth (buckets.map (bucketIncome filtered)) idx ∧
    (idx = 0 → ((chartData filtered buckets).getD idx dfltPoint).growth = 0) ∧
    (0 < idx → (buckets.map (bucketIncome filtered)).getD (idx - 1) 0 = 0 →
      ((chartData filtered buckets).getD idx dfltPoint).growth = 0) ∧
    (0 < idx → (buckets.map (bucketIncome filtered)).getD (idx - 1) 0 ≠ 0 →
      ((chartData filtered buckets).getD idx dfltPoint).growth =
        ((buckets.map (bucketIncome filtered)).getD idx 0 -
            (buckets.map (bucketIncome filtered)).getD (idx - 1) 0) /
          (buckets.map (bucketIncome filtered)).getD (idx - 1) 0 * 100) := by
  have hlen : idx < (List.range buckets.length).length := by simpa using hidx
  have hpt : (chartData filtered buckets).getD idx dfltPoint =
      { month := (buckets.getD idx ⟨"", 0, 0⟩).label
        income := (buckets.map (bucketIncome filtered)).getD idx 0 / 1000
        growth := computeGrowth (buckets.map (bucketIncome filtered)) idx } := by
    simp only [chartData]
    rw [getD_map_of_lt _ (List.range buckets.length) idx hlen dfltPoint 0,
        getD_range_of_lt _ _ hidx 0]
  refine ⟨by rw [hpt], ?_, ?_, ?_⟩
  · intro h0
    rw [hpt]
    simp [computeGrowth, h0]
  · intro hpos hprev
    rw [hpt]
    show computeGrowth (buckets.map (bucketIncome filtered)) idx = 0
    rw [computeGrowth, if_neg (Nat.pos_iff_ne_zero.mp hpos)]
    simp only []
    rw [if_pos hprev]
  · intro hpos hprev
    rw [hpt]
    show computeGrowth (buckets.map (bucketIncome filtered)) idx = _
    rw [computeGrowth, if_neg (Nat.pos_iff_ne_zero.mp hpos)]
    simp only []
    rw [if_neg hprev]

/-- Witness for C4 at the spec's growth scenario: bucket incomes 1000 and
2000 give the second bucket a growth of (2000 − 1000) / 1000 × 100 = 100,
and bucket 0's growth is 0. -/
theorem chartData_growth_spec_witness :
    ((chartData [invK1, invK2] [⟨"b0", 0, 40⟩, ⟨"b1", 41, 80⟩]).getD 1 dfltPoint).growth =
      100 ∧
    ((chartData [invK1, invK2] [⟨"b0", 0, 40⟩, ⟨"b1", 41, 80⟩]).getD 0 dfltPoint).growth =
      0 := by
  have hprev : (([⟨"b0", 0, 40⟩, ⟨"b1", 41, 80⟩] : List Bucket).map
      (bucketIncome [invK1, invK2])).getD 0 0 = (1000 : ℚ) := by
    norm_num [bucketIncome, paidish, invK1, invK2, List.filter_cons]
  have hcur : (([⟨"b0", 0, 40⟩, ⟨"b1", 41, 80⟩] : List Bucket).map
      (bucketIncome [invK1, invK2])).getD 1 0 = (2000 : ℚ) := by
    norm_num [bucketIncome, paidish, invK1, invK2, List.filter_cons]
  constructor
  · rw [(chartData_growth_spec [invK1, invK2] [⟨"b0", 0, 40⟩, ⟨"b1", 41, 80⟩] 1
        (by norm_num)).2.2.2 (by norm_num) (by rw [hprev]; norm_num), hprev, hcur]
    norm_num
  · exact (chartData_growth_spec [invK1, invK2] [⟨"b0", 0, 40⟩, ⟨"b1", 41, 80⟩] 0
      (by norm_num)).2.1 rfl
